import Mathlib

/-!
Verification of the tab-and-slot joinery core of the steelbox repository.

The Python source is shallowly embedded over the real numbers: every float
becomes an element of the real field, tuples of three floats become elements
of the product type V3, and each Python function of the joinery core becomes
a Lean definition that mirrors the source expression for expression.  The
relevant source files are:

  - src/joinery/joint_detector.py  (MemberAxis, Joint, closest-point search,
    find_intersection, detect_all_joints)
  - src/joinery/tab_slot.py        (TabSlotGenerator, TabGeometry,
    SlotGeometry, generate_joint_features)
  - src/joinery/interference.py    (BoundingBox, Interference,
    check_tab_tab_interference)
  - src/joinery/corner_relief.py   (recommend_relief_type)
  - src/profiles/tube_profile.py   (TubeProfile and its derived widths)
  - src/core/jointed_box.py        (the orchestrator's construction of the
    tab/slot generator, modelled at the level of keyword lists)

Real-number comparisons from the source are kept verbatim; the embedding is
noncomputable because the source normalises vectors with a square root, and
the classical order on the reals is used to interpret the source's branch
conditions.
-/

noncomputable section

open Classical

/-- Points and vectors: a Python tuple (x, y, z) of floats. -/
abbrev V3 : Type := ℝ × ℝ × ℝ

/-- Componentwise subtraction, source function named with a leading
underscore in joint_detector.py (lines 148-150). -/
def vsub (a b : V3) : V3 := (a.1 - b.1, a.2.1 - b.2.1, a.2.2 - b.2.2)

/-- Componentwise addition, used for points of the form p + t*d in
_closest_points_on_lines (joint_detector.py lines 190-191). -/
def vadd (a b : V3) : V3 := (a.1 + b.1, a.2.1 + b.2.1, a.2.2 + b.2.2)

/-- Scaling of a vector by a scalar. -/
def vscale (t : ℝ) (a : V3) : V3 := (t * a.1, t * a.2.1, t * a.2.2)

/-- Dot product of two 3D vectors (joint_detector.py lines 134-136). -/
def vdot (a b : V3) : ℝ := a.1 * b.1 + a.2.1 * b.2.1 + a.2.2 * b.2.2

/-- Cross product of two 3D vectors (joint_detector.py lines 139-145). -/
def vcross (a b : V3) : V3 :=
  (a.2.1 * b.2.2 - a.2.2 * b.2.1,
   a.2.2 * b.1 - a.1 * b.2.2,
   a.1 * b.2.1 - a.2.1 * b.1)

/-- Length of a 3D vector (joint_detector.py lines 153-155). -/
def vnorm (v : V3) : ℝ := Real.sqrt (v.1 * v.1 + v.2.1 * v.2.1 + v.2.2 * v.2.2)

/-- Types of tube joints (joint_detector.py lines 23-29). -/
inductive JointType where
  | T_JOINT
  | CORNER
  | CROSS
  | INLINE
  | SKEW
deriving DecidableEq, Repr

/-- Which face of the tube the tab is on (joint_detector.py lines 32-37). -/
inductive TabPosition where
  | TOP
  | BOTTOM
  | LEFT
  | RIGHT
deriving DecidableEq, Repr

/-- Simplified representation of a tube member for intersection detection
(joint_detector.py lines 40-102).  The Python field named end is called
end_ to avoid the Lean keyword. -/
structure MemberAxis where
  member_id : String
  start : V3
  end_ : V3
  width : ℝ
  height : ℝ

/-- Member length in mm (property length, joint_detector.py lines 64-70). -/
def MemberAxis.length (m : MemberAxis) : ℝ := vnorm (vsub m.end_ m.start)

/-- Unit vector along the member axis (property direction,
joint_detector.py lines 53-62); note the fallback to (0, 0, 1) when the
length is less than 1e-6. -/
def MemberAxis.direction (m : MemberAxis) : V3 :=
  if m.length < 1e-6 then ((0 : ℝ), (0 : ℝ), (1 : ℝ))
  else vscale (1 / m.length) (vsub m.end_ m.start)

/-- Center point of the member (joint_detector.py lines 72-79). -/
def MemberAxis.midpoint (m : MemberAxis) : V3 :=
  ((m.start.1 + m.end_.1) / 2, (m.start.2.1 + m.end_.2.1) / 2,
   (m.start.2.2 + m.end_.2.2) / 2)

/-- Check if the member is primarily vertical (joint_detector.py
lines 81-84); the source default for the tolerance argument is 0.01. -/
def MemberAxis.is_vertical (m : MemberAxis) (tol : ℝ) : Prop :=
  |(m.direction).2.2| > 1 - tol

/-- Check if the member runs along the X axis (joint_detector.py
lines 86-89). -/
def MemberAxis.is_horizontal_x (m : MemberAxis) (tol : ℝ) : Prop :=
  |(m.direction).1| > 1 - tol

/-- Check if the member runs along the Y axis (joint_detector.py
lines 91-94). -/
def MemberAxis.is_horizontal_y (m : MemberAxis) (tol : ℝ) : Prop :=
  |(m.direction).2.1| > 1 - tol

/-- Point along the member axis at parameter t (joint_detector.py
lines 96-102). -/
def MemberAxis.point_at_param (m : MemberAxis) (t : ℝ) : V3 :=
  (m.start.1 + t * (m.end_.1 - m.start.1),
   m.start.2.1 + t * (m.end_.2.1 - m.start.2.1),
   m.start.2.2 + t * (m.end_.2.2 - m.start.2.2))

/-- Describes a joint between two members (joint_detector.py
lines 105-121): member_a receives the slot, member_b bears the tab. -/
structure Joint where
  joint_type : JointType
  member_a : MemberAxis
  member_b : MemberAxis
  intersection_point : V3
  param_a : ℝ
  param_b : ℝ
  tab_face : TabPosition
  slot_face : TabPosition

/-- Does the joint occur at an end of member A (joint_detector.py
lines 123-126)? -/
def Joint.is_end_joint_a (j : Joint) : Prop := j.param_a < 0.01 ∨ j.param_a > 0.99

/-- Does the joint occur at an end of member B (joint_detector.py
lines 129-131)? -/
def Joint.is_end_joint_b (j : Joint) : Prop := j.param_b < 0.01 ∨ j.param_b > 0.99

/-- The denominator a*c - b*b of the closest-point formula, where a, b, c
are the Gram-matrix entries of the two direction vectors
(_closest_points_on_lines, joint_detector.py lines 172-179). -/
def gramDenom (d1 d2 : V3) : ℝ := vdot d1 d1 * vdot d2 d2 - vdot d1 d2 * vdot d1 d2

/-- Parameter t1 of _closest_points_on_lines (joint_detector.py
lines 181-187): 0 in the parallel branch, otherwise (b*e - c*d)/denom with
b = dot d1 d2, c = dot d2 d2, d = dot d1 w0, e = dot d2 w0, w0 = p1 - p2. -/
def cplT1 (p1 d1 p2 d2 : V3) : ℝ :=
  if |gramDenom d1 d2| < 1e-10 then 0
  else (vdot d1 d2 * vdot d2 (vsub p1 p2) - vdot d2 d2 * vdot d1 (vsub p1 p2)) /
    gramDenom d1 d2

/-- Parameter t2 of _closest_points_on_lines (joint_detector.py
lines 181-187): in the parallel branch d/b when |b| > 1e-10 and 0 otherwise,
else (a*e - b*d)/denom with a = dot d1 d1. -/
def cplT2 (p1 d1 p2 d2 : V3) : ℝ :=
  if |gramDenom d1 d2| < 1e-10 then
    (if |vdot d1 d2| > 1e-10 then vdot d1 (vsub p1 p2) / vdot d1 d2 else 0)
  else (vdot d1 d1 * vdot d2 (vsub p1 p2) - vdot d1 d2 * vdot d1 (vsub p1 p2)) /
    gramDenom d1 d2

/-- Distance between the two closest points pt1 = p1 + t1*d1 and
pt2 = p2 + t2*d2 (_closest_points_on_lines, joint_detector.py
lines 189-192). -/
def cplDist (p1 d1 p2 d2 : V3) : ℝ :=
  vnorm (vsub (vadd p1 (vscale (cplT1 p1 d1 p2 d2) d1))
              (vadd p2 (vscale (cplT2 p1 d1 p2 d2) d2)))

/-- Closest points between two infinite lines, returning (t1, t2, distance)
(_closest_points_on_lines, joint_detector.py lines 158-194). -/
def closestPointsOnLines (p1 d1 p2 d2 : V3) : ℝ × ℝ × ℝ :=
  (cplT1 p1 d1 p2 d2, cplT2 p1 d1 p2 d2, cplDist p1 d1 p2 d2)

/-- The local direction d1 of find_intersection (joint_detector.py
lines 214-222): the raw segment vector normalised when the length exceeds
1e-6, else the fallback (0, 0, 1).  Note the strict comparison is the
opposite of the one in MemberAxis.direction. -/
def fiDir (m : MemberAxis) : V3 :=
  if m.length > 1e-6 then vscale (1 / m.length) (vsub m.end_ m.start)
  else ((0 : ℝ), (0 : ℝ), (1 : ℝ))

/-- The (t1, t2, dist) triple computed by find_intersection at
joint_detector.py line 225. -/
def fiT (a b : MemberAxis) : ℝ × ℝ × ℝ :=
  closestPointsOnLines a.start (fiDir a) b.start (fiDir b)

/-- Normalised segment parameter for the first member
(joint_detector.py line 228). -/
def fiParamA (a b : MemberAxis) : ℝ :=
  if a.length > 1e-6 then (fiT a b).1 / a.length else 0

/-- Normalised segment parameter for the second member
(joint_detector.py line 229). -/
def fiParamB (a b : MemberAxis) : ℝ :=
  if b.length > 1e-6 then (fiT a b).2.1 / b.length else 0

/-- Closest-approach distance used by find_intersection
(joint_detector.py line 225). -/
def fiDist (a b : MemberAxis) : ℝ := (fiT a b).2.2

/-- Acceptance margin for the first member (joint_detector.py line 232). -/
def fiMarginA (a b : MemberAxis) (tol : ℝ) : ℝ :=
  if a.length > 1e-6 then (a.width / 2 + tol) / a.length else 0

/-- Acceptance margin for the second member (joint_detector.py line 233). -/
def fiMarginB (a b : MemberAxis) (tol : ℝ) : ℝ :=
  if b.length > 1e-6 then (b.width / 2 + tol) / b.length else 0

/-- Parameter of the first member clamped to [0, 1]
(joint_detector.py line 246). -/
def fiClampA (a b : MemberAxis) : ℝ := max 0 (min 1 (fiParamA a b))

/-- Parameter of the second member clamped to [0, 1]
(joint_detector.py line 247). -/
def fiClampB (a b : MemberAxis) : ℝ := max 0 (min 1 (fiParamB a b))

/-- Absolute dot product of the two unit directions
(joint_detector.py line 253). -/
def fiDotDirs (a b : MemberAxis) : ℝ := |vdot (fiDir a) (fiDir b)|

/-- The end test applied to a clamped parameter by the classification and
the tab assignment (joint_detector.py lines 260-275): strictly below 0.01
or strictly above 0.99. -/
def fiIsEnd (t : ℝ) : Prop := t < 0.01 ∨ t > 0.99

/-- Joint classification (joint_detector.py lines 252-270). -/
def fiJointType (a b : MemberAxis) : JointType :=
  if fiDotDirs a b > 0.99 then JointType.INLINE
  else if fiDotDirs a b < 0.01 then
    (if fiIsEnd (fiClampA a b) then
      (if fiIsEnd (fiClampB a b) then JointType.CORNER else JointType.T_JOINT)
    else if fiIsEnd (fiClampB a b) then JointType.T_JOINT
    else JointType.CROSS)
  else JointType.SKEW

/-- Slot-receiving member (joint_detector.py lines 272-282): member_a of
the call when the second member's clamped parameter is at an end, else
member_b of the call. -/
def fiSlotMember (a b : MemberAxis) : MemberAxis :=
  if fiIsEnd (fiClampB a b) then a else b

/-- Tab-bearing member (joint_detector.py lines 272-282). -/
def fiTabMember (a b : MemberAxis) : MemberAxis :=
  if fiIsEnd (fiClampB a b) then b else a

/-- Tab face selection (joint_detector.py lines 284-297): every branch of
the source assigns TabPosition.TOP. -/
def fiTabFaceOf (m : MemberAxis) : TabPosition :=
  if m.is_vertical 0.01 then TabPosition.TOP
  else if m.is_horizontal_x 0.01 then TabPosition.TOP
  else if m.is_horizontal_y 0.01 then TabPosition.TOP
  else TabPosition.TOP

/-- The Joint record built at joint_detector.py lines 299-308; the param_a
and param_b fields replay the source's dataclass equality tests
slot_member == member_a and tab_member == member_b. -/
def fiJoint (a b : MemberAxis) : Joint :=
  { joint_type := fiJointType a b
    member_a := fiSlotMember a b
    member_b := fiTabMember a b
    intersection_point := a.point_at_param (fiClampA a b)
    param_a := if fiSlotMember a b = a then fiClampA a b else fiClampB a b
    param_b := if fiTabMember a b = b then fiClampB a b else fiClampA a b
    tab_face := fiTabFaceOf (fiTabMember a b)
    slot_face := TabPosition.TOP }

/-- find_intersection (joint_detector.py lines 197-308): the three guard
rejections followed by construction of the Joint. -/
def find_intersection (a b : MemberAxis) (tol : ℝ) : Option Joint :=
  if fiParamA a b < -(fiMarginA a b tol) ∨ fiParamA a b > 1 + fiMarginA a b tol then
    none
  else if fiParamB a b < -(fiMarginB a b tol) ∨ fiParamB a b > 1 + fiMarginB a b tol then
    none
  else if fiDist a b > tol + (a.width + b.width) / 2 then none
  else some (fiJoint a b)

/-- detect_all_joints (joint_detector.py lines 311-334): the pairwise scan
over i < j in list order. -/
def detect_all_joints : List MemberAxis → ℝ → List Joint
  | [], _ => []
  | m :: rest, tol =>
      rest.filterMap (fun x => find_intersection m x tol) ++ detect_all_joints rest tol

/-- Geometric properties of a tube cross-section (tube_profile.py
lines 14-36).  The inner corner radius is stored after the dataclass
post-init has run; ProfileGeometry.make replays that derivation. -/
structure ProfileGeometry where
  outer_width_mm : ℝ
  outer_height_mm : ℝ
  wall_thickness_mm : ℝ
  corner_radius_mm : ℝ
  inner_corner_radius_mm : ℝ

/-- The dataclass post-init of ProfileGeometry (tube_profile.py
lines 25-28): default the inner corner radius to the outer radius minus the
wall thickness, clamped to 0. -/
def ProfileGeometry.make (ow oh wt cr : ℝ) (icr : Option ℝ) : ProfileGeometry :=
  { outer_width_mm := ow
    outer_height_mm := oh
    wall_thickness_mm := wt
    corner_radius_mm := cr
    inner_corner_radius_mm :=
      match icr with
      | some v => v
      | none => max 0 (cr - wt) }

/-- Inner width (tube_profile.py lines 30-32). -/
def ProfileGeometry.inner_width_mm (g : ProfileGeometry) : ℝ :=
  g.outer_width_mm - 2 * g.wall_thickness_mm

/-- Inner height (tube_profile.py lines 34-36). -/
def ProfileGeometry.inner_height_mm (g : ProfileGeometry) : ℝ :=
  g.outer_height_mm - 2 * g.wall_thickness_mm

/-- Manufacturer tolerances for laser cutting (tube_profile.py
lines 39-64). -/
structure ProfileTolerances where
  slot_clearance_mm : ℝ
  tab_undersize_mm : ℝ
  kerf_compensation_mm : ℝ
  corner_relief_radius_mm : ℝ
  finish_allowance_mm : ℝ

/-- Total gap between tab and slot (tube_profile.py lines 59-64). -/
def ProfileTolerances.total_clearance_mm (t : ProfileTolerances) : ℝ :=
  t.slot_clearance_mm + t.tab_undersize_mm + 2 * t.kerf_compensation_mm

/-- Complete tube profile definition (tube_profile.py lines 83-98).  The
material and metadata dataclasses carry only BOM and provenance strings and
numbers that the joinery computations never read, so they are not part of
the embedding. -/
structure TubeProfile where
  name : String
  description : String
  geometry : ProfileGeometry
  tolerances : ProfileTolerances

/-- Python falsy-or used for the optional wall-thickness override:
wall = wall_thickness_mm or self.geometry.wall_thickness_mm
(tube_profile.py lines 109 and 122).  A passed 0.0 is falsy and therefore
falls back to the profile default, exactly as in the source. -/
def orWall (w : Option ℝ) (dflt : ℝ) : ℝ :=
  match w with
  | some v => if v = 0 then dflt else v
  | none => dflt

/-- Slot width for cutting into a member (tube_profile.py lines 101-112). -/
def TubeProfile.calc_slot_width (p : TubeProfile) (w : Option ℝ) : ℝ :=
  orWall w p.geometry.wall_thickness_mm +
    p.tolerances.slot_clearance_mm + p.tolerances.kerf_compensation_mm

/-- Tab width for extending from a member (tube_profile.py
lines 114-125). -/
def TubeProfile.calc_tab_width (p : TubeProfile) (w : Option ℝ) : ℝ :=
  orWall w p.geometry.wall_thickness_mm -
    p.tolerances.tab_undersize_mm - p.tolerances.kerf_compensation_mm

/-- Total clearance between tab and slot (tube_profile.py lines 127-129). -/
def TubeProfile.calc_fit_clearance (p : TubeProfile) : ℝ :=
  p.calc_slot_width none - p.calc_tab_width none

/-- How deep a tab should extend into a slot (tube_profile.py
lines 131-139); the second argument is the depth ratio of the source,
defaulting there to 0.6. -/
def TubeProfile.calc_tab_depth (_p : TubeProfile) (mating_depth_mm r : ℝ) : ℝ :=
  mating_depth_mm * r

/-- Validity of a profile for joinery, as the specification states it:
positive outer dimensions, a wall thinner than half the smaller outer
dimension, non-negative tolerances, and a positive fit clearance.  This
predicate comes from the specification text (sections 3 and 7); the source
has no validation routine of its own. -/
def profile_valid_for_joinery (p : TubeProfile) : Prop :=
  0 < p.geometry.outer_width_mm ∧ 0 < p.geometry.outer_height_mm ∧
  0 < p.geometry.wall_thickness_mm ∧
  p.geometry.wall_thickness_mm <
    min p.geometry.outer_width_mm p.geometry.outer_height_mm / 2 ∧
  0 ≤ p.tolerances.slot_clearance_mm ∧ 0 ≤ p.tolerances.tab_undersize_mm ∧
  0 ≤ p.tolerances.kerf_compensation_mm ∧
  0 ≤ p.tolerances.corner_relief_radius_mm ∧
  0 ≤ p.tolerances.finish_allowance_mm ∧
  p.calc_tab_width none < p.calc_slot_width none

/-- Types of corner relief for slots (tab_slot.py lines 36-41). -/
inductive CornerReliefType where
  | NONE
  | DOGBONE
  | RADIUS
  | TBONE
deriving DecidableEq, Repr

/-- Geometry of a single tab (tab_slot.py lines 44-59). -/
structure TabGeometry where
  width : ℝ
  depth : ℝ
  thickness : ℝ
  position : V3
  direction : V3
  normal : V3
  corner_radius : ℝ

/-- Geometry of a slot cut (tab_slot.py lines 62-78). -/
structure SlotGeometry where
  width : ℝ
  depth : ℝ
  length : ℝ
  position : V3
  direction : V3
  along : V3
  relief_type : CornerReliefType
  relief_radius : ℝ

/-- Generator of tab and slot geometry (tab_slot.py lines 81-114).  Its
constructor accepts exactly the profile, a fixed tab depth in mm and a
relief type; the cached dimensions of the source constructor are the
derived definitions below. -/
structure TabSlotGenerator where
  profile : TubeProfile
  tab_depth_mm : ℝ
  relief_type : CornerReliefType

/-- Cached wall thickness (tab_slot.py line 107). -/
def TabSlotGenerator.wall_thickness (g : TabSlotGenerator) : ℝ :=
  g.profile.geometry.wall_thickness_mm

/-- Cached tube width (tab_slot.py line 108). -/
def TabSlotGenerator.tube_width (g : TabSlotGenerator) : ℝ :=
  g.profile.geometry.outer_width_mm

/-- Cached tube height (tab_slot.py line 109). -/
def TabSlotGenerator.tube_height (g : TabSlotGenerator) : ℝ :=
  g.profile.geometry.outer_height_mm

/-- Cached tab width (tab_slot.py line 112). -/
def TabSlotGenerator.tab_width (g : TabSlotGenerator) : ℝ :=
  g.profile.calc_tab_width none

/-- Cached slot width (tab_slot.py line 113). -/
def TabSlotGenerator.slot_width (g : TabSlotGenerator) : ℝ :=
  g.profile.calc_slot_width none

/-- Cached relief radius (tab_slot.py line 114). -/
def TabSlotGenerator.relief_radius (g : TabSlotGenerator) : ℝ :=
  g.profile.tolerances.corner_relief_radius_mm

/-- Tab geometry for a joint (calc_tab_geometry, tab_slot.py
lines 116-205). -/
def TabSlotGenerator.calc_tab_geometry (g : TabSlotGenerator) (joint : Joint)
    (face : TabPosition) : TabGeometry :=
  let tab_member := joint.member_b
  let slot_member := joint.member_a
  let tab_depth := g.tab_depth_mm
  let base_pos := if joint.param_b > 0.5 then tab_member.end_ else tab_member.start
  let tab_dir := tab_member.direction
  let slot_dir := slot_member.direction
  let slot_center := slot_member.point_at_param joint.param_a
  let dvec := vsub slot_center base_pos
  let dist := vnorm dvec
  let extend_dir := if dist > 1e-6 then vscale (1 / dist) dvec else slot_dir
  let face_normal :=
    if |tab_dir.2.2| > 0.9 then
      (if |extend_dir.1| > |extend_dir.2.1| then
        (if face = TabPosition.TOP then ((0:ℝ), (1:ℝ), (0:ℝ)) else ((0:ℝ), (-1:ℝ), (0:ℝ)))
      else
        (if face = TabPosition.TOP then ((1:ℝ), (0:ℝ), (0:ℝ)) else ((-1:ℝ), (0:ℝ), (0:ℝ))))
    else
      (if face = TabPosition.TOP then ((0:ℝ), (0:ℝ), (1:ℝ)) else ((0:ℝ), (0:ℝ), (-1:ℝ)))
  let face_offset := g.tube_height / 2 - g.wall_thickness / 2
  { width := g.tab_width
    depth := tab_depth
    thickness := g.wall_thickness
    position := vadd base_pos (vscale face_offset face_normal)
    direction := extend_dir
    normal := face_normal
    corner_radius :=
      if g.relief_type = CornerReliefType.RADIUS then g.relief_radius else 0 }

/-- Slot geometry for a joint (calc_slot_geometry, tab_slot.py
lines 207-297).  The face argument of the source method is accepted but
never read, exactly as in the source. -/
def TabSlotGenerator.calc_slot_geometry (g : TabSlotGenerator) (joint : Joint)
    (_face : TabPosition) : SlotGeometry :=
  let slot_member := joint.member_a
  let tab_member := joint.member_b
  let slot_depth := g.wall_thickness * 2.0
  let slot_length := g.tab_depth_mm + g.relief_radius * 2
  let position := slot_member.point_at_param joint.param_a
  let member_dir := slot_member.direction
  let tab_base := if joint.param_b > 0.5 then tab_member.end_ else tab_member.start
  let approach := vsub position tab_base
  let slot_into :=
    if |member_dir.2.2| > 0.9 then
      (if approach.2.1 > 0 then ((0:ℝ), (1:ℝ), (0:ℝ)) else ((0:ℝ), (-1:ℝ), (0:ℝ)))
    else if |member_dir.1| > 0.9 then
      (if approach.2.2 > 0 then ((0:ℝ), (0:ℝ), (1:ℝ)) else ((0:ℝ), (0:ℝ), (-1:ℝ)))
    else
      (if approach.2.2 > 0 then ((0:ℝ), (0:ℝ), (1:ℝ)) else ((0:ℝ), (0:ℝ), (-1:ℝ)))
  let along :=
    if |member_dir.2.2| > 0.9 then ((1:ℝ), (0:ℝ), (0:ℝ))
    else if |member_dir.1| > 0.9 then ((0:ℝ), (1:ℝ), (0:ℝ))
    else ((1:ℝ), (0:ℝ), (0:ℝ))
  { width := g.slot_width
    depth := slot_depth
    length := slot_length
    position := vadd position (vscale (g.tube_height / 2) slot_into)
    direction := slot_into
    along := along
    relief_type := g.relief_type
    relief_radius := g.relief_radius }

/-- generate_joint_features (tab_slot.py lines 424-445): INLINE joints get
no tab and no slot, every other joint gets both. -/
def TabSlotGenerator.generate_joint_features (g : TabSlotGenerator)
    (joint : Joint) : Option TabGeometry × Option SlotGeometry :=
  if joint.joint_type = JointType.INLINE then (none, none)
  else (some (g.calc_tab_geometry joint joint.tab_face),
        some (g.calc_slot_geometry joint joint.slot_face))

/-- The parameter names of TabSlotGenerator.__init__ other than self
(tab_slot.py lines 88-93). -/
def tabSlotGenerator_init_params : List String :=
  ["profile", "tab_depth_mm", "relief_type"]

/-- The keyword argument names of the call
TabSlotGenerator(profile, tab_depth_ratio=specs.tab_depth_ratio,
relief_type=relief_type) made by JointedBoxGenerator.__init__
(jointed_box.py lines 103-107). -/
def jointedBox_tabSlotGen_call_kwargs : List String :=
  ["tab_depth_ratio", "relief_type"]

/-- A Python keyword call binds only when every keyword names a declared
parameter; otherwise the interpreter raises TypeError before the body
runs. -/
def py_kwargs_accepted (params kwargs : List String) : Bool :=
  kwargs.all (fun k => params.contains k)

/-- Types of interference (interference.py lines 24-29). -/
inductive InterferenceType where
  | TAB_TAB
  | TAB_SLOT
  | SLOT_SLOT
  | CAP_TAB
deriving DecidableEq, Repr

/-- An interference between two features (interference.py lines 32-40). -/
structure Interference where
  interference_type : InterferenceType
  feature_a : String
  feature_b : String
  location : V3
  overlap_volume : ℝ
  resolution : String

/-- Axis-aligned bounding box (interference.py lines 43-51). -/
structure BoundingBox where
  min_x : ℝ
  min_y : ℝ
  min_z : ℝ
  max_x : ℝ
  max_y : ℝ
  max_z : ℝ

/-- Box intersection test with tolerance (interference.py lines 53-62):
true unless the boxes are separated by more than the tolerance on some
axis. -/
def BoundingBox.intersects (s o : BoundingBox) (tol : ℝ) : Bool :=
  !(decide (s.max_x < o.min_x - tol) || decide (s.min_x > o.max_x + tol) ||
    decide (s.max_y < o.min_y - tol) || decide (s.min_y > o.max_y + tol) ||
    decide (s.max_z < o.min_z - tol) || decide (s.min_z > o.max_z + tol))

/-- Bounding box of a tab (interference.py lines 64-88): the tab segment
from position along direction by depth, padded by half the width in x and
y and half the thickness in z. -/
def BoundingBox.from_tab (tab : TabGeometry) : BoundingBox :=
  let px := tab.position.1
  let py := tab.position.2.1
  let pz := tab.position.2.2
  let ex := px + tab.direction.1 * tab.depth
  let ey := py + tab.direction.2.1 * tab.depth
  let ez := pz + tab.direction.2.2 * tab.depth
  { min_x := min px ex - tab.width / 2
    min_y := min py ey - tab.width / 2
    min_z := min pz ez - tab.thickness / 2
    max_x := max px ex + tab.width / 2
    max_y := max py ey + tab.width / 2
    max_z := max pz ez + tab.thickness / 2 }

/-- The Interference record built for an overlapping pair of tabs
(interference.py lines 140-153). -/
def mkTabTabInterference (ida : String) (ta : TabGeometry) (idb : String)
    (tb : TabGeometry) : Interference :=
  { interference_type := InterferenceType.TAB_TAB
    feature_a := "Tab from " ++ ida
    feature_b := "Tab from " ++ idb
    location := ((ta.position.1 + tb.position.1) / 2,
                 (ta.position.2.1 + tb.position.2.1) / 2,
                 (ta.position.2.2 + tb.position.2.2) / 2)
    overlap_volume := 0
    resolution := "Offset tabs or reduce tab width" }

/-- check_tab_tab_interference (interference.py lines 117-155): for each
index pair i < j in list order, flag the pair whose boxes intersect within
the tolerance. -/
def check_tab_tab_interference : List (String × TabGeometry) → ℝ → List Interference
  | [], _ => []
  | (ida, ta) :: rest, tol =>
      rest.filterMap (fun p =>
        if BoundingBox.intersects (BoundingBox.from_tab ta)
            (BoundingBox.from_tab p.2) tol then
          some (mkTabTabInterference ida ta p.1 p.2)
        else none) ++ check_tab_tab_interference rest tol

/-- All index pairs i < j of a list in the scan order of the source's
double loop, used to state what check_tab_tab_interference reports. -/
def tailPairs {α : Type} : List α → List (α × α)
  | [] => []
  | x :: rest => rest.map (fun y => (x, y)) ++ tailPairs rest

/-- Python str.lower, character by character (ASCII suffices for every
process name the source compares against). -/
def pyLower (s : String) : String := String.mk (s.data.map Char.toLower)

/-- recommend_relief_type (corner_relief.py lines 304-341).  Python tuple
membership tests become list membership over the lower-cased process
string. -/
def recommend_relief_type (cutting_process : String) (tab_corner_radius : ℝ) :
    CornerReliefType :=
  let process := pyLower cutting_process
  if tab_corner_radius > 0.1 then CornerReliefType.RADIUS
  else if process ∈ ["laser", "fiber laser", "co2 laser"] then CornerReliefType.RADIUS
  else if process ∈ ["plasma"] then CornerReliefType.DOGBONE
  else if process ∈ ["waterjet"] then CornerReliefType.RADIUS
  else if process ∈ ["cnc", "mill", "router"] then CornerReliefType.DOGBONE
  else CornerReliefType.RADIUS

/-- The long member of the concrete scenarios: the segment from the origin
to (1000, 0, 0) of a 50 mm square tube. -/
def axisX : MemberAxis :=
  { member_id := "A"
    start := ((0:ℝ), (0:ℝ), (0:ℝ))
    end_ := ((1000:ℝ), (0:ℝ), (0:ℝ))
    width := 50
    height := 50 }

/-- Member B of Scenario A: from (500, -50, 0) to (500, 500, 0), a 50 mm
square tube butting against the face of axisX. -/
def scB : MemberAxis :=
  { member_id := "B"
    start := ((500:ℝ), (-50:ℝ), (0:ℝ))
    end_ := ((500:ℝ), (500:ℝ), (0:ℝ))
    width := 50
    height := 50 }

/-- The joint that find_intersection actually returns on Scenario A:
classified CROSS, with member B receiving the slot and member A bearing
the tab. -/
def jScA : Joint :=
  { joint_type := JointType.CROSS
    member_a := scB
    member_b := axisX
    intersection_point := ((500:ℝ), (0:ℝ), (0:ℝ))
    param_a := 1 / 11
    param_b := 1 / 2
    tab_face := TabPosition.TOP
    slot_face := TabPosition.TOP }

/-- Member B of the boundary input for the tab tie-break: a 100 mm member
whose centerline crosses the axis of axisX exactly 1 mm after its start,
so its normalised parameter is exactly 0.01. -/
def bndB : MemberAxis :=
  { member_id := "B"
    start := ((500:ℝ), (-1:ℝ), (0:ℝ))
    end_ := ((500:ℝ), (99:ℝ), (0:ℝ))
    width := 50
    height := 50 }

/-- The joint returned at the 0.01 boundary input: B's normalised
parameter is exactly 0.01, the strict end test fails, so the code keeps A
as tab-bearer and classifies the joint CROSS. -/
def jBnd : Joint :=
  { joint_type := JointType.CROSS
    member_a := bndB
    member_b := axisX
    intersection_point := ((500:ℝ), (0:ℝ), (0:ℝ))
    param_a := 1 / 100
    param_b := 1 / 2
    tab_face := TabPosition.TOP
    slot_face := TabPosition.TOP }

/-- Member B of the boundary input for classification: it meets the far
end of axisX with its own normalised parameter exactly 0.01. -/
def cornB : MemberAxis :=
  { member_id := "B"
    start := ((1000:ℝ), (-1:ℝ), (0:ℝ))
    end_ := ((1000:ℝ), (99:ℝ), (0:ℝ))
    width := 50
    height := 50 }

/-- The joint returned at the classification boundary input: A ends
(parameter 1) while B's parameter is exactly 0.01, so the strict end test
sees only one end and the code classifies T_JOINT, not CORNER. -/
def jCorn3 : Joint :=
  { joint_type := JointType.T_JOINT
    member_a := cornB
    member_b := axisX
    intersection_point := ((1000:ℝ), (0:ℝ), (0:ℝ))
    param_a := 1 / 100
    param_b := 1
    tab_face := TabPosition.TOP
    slot_face := TabPosition.TOP }

/-- Member A of Scenario B: the vertical 500 mm member from the origin. -/
def vrtA : MemberAxis :=
  { member_id := "A"
    start := ((0:ℝ), (0:ℝ), (0:ℝ))
    end_ := ((0:ℝ), (0:ℝ), (500:ℝ))
    width := 50
    height := 50 }

/-- Member B of Scenario B: the horizontal 500 mm member starting exactly
where vrtA ends. -/
def horB : MemberAxis :=
  { member_id := "B"
    start := ((0:ℝ), (0:ℝ), (500:ℝ))
    end_ := ((500:ℝ), (0:ℝ), (500:ℝ))
    width := 50
    height := 50 }

/-- The joint of Scenario B: a CORNER with B as tab-bearer, exactly as the
tie-break promises. -/
def jScB : Joint :=
  { joint_type := JointType.CORNER
    member_a := vrtA
    member_b := horB
    intersection_point := ((0:ℝ), (0:ℝ), (500:ℝ))
    param_a := 1
    param_b := 0
    tab_face := TabPosition.TOP
    slot_face := TabPosition.TOP }

/-- The short collinear member contained in the span of axisX. -/
def parB : MemberAxis :=
  { member_id := "P"
    start := ((400:ℝ), (0:ℝ), (0:ℝ))
    end_ := ((500:ℝ), (0:ℝ), (0:ℝ))
    width := 50
    height := 50 }

/-- Scanned as (parB, axisX), the same physical pair yields an INLINE
joint. -/
def jInl : Joint :=
  { joint_type := JointType.INLINE
    member_a := axisX
    member_b := parB
    intersection_point := ((400:ℝ), (0:ℝ), (0:ℝ))
    param_a := 2 / 5
    param_b := 0
    tab_face := TabPosition.TOP
    slot_face := TabPosition.TOP }

/-- The degenerate member: zero length, below the 1e-6 threshold. -/
def degD : MemberAxis :=
  { member_id := "D"
    start := ((0:ℝ), (0:ℝ), (0:ℝ))
    end_ := ((0:ℝ), (0:ℝ), (0:ℝ))
    width := 50
    height := 50 }

/-- A regular member through the degenerate member's position. -/
def memM : MemberAxis :=
  { member_id := "M"
    start := ((0:ℝ), (0:ℝ), (0:ℝ))
    end_ := ((100:ℝ), (0:ℝ), (0:ℝ))
    width := 50
    height := 50 }

/-- The joint that find_intersection emits for the degenerate member and
its partner: the degenerate member receives the slot. -/
def jDM : Joint :=
  { joint_type := JointType.CORNER
    member_a := degD
    member_b := memM
    intersection_point := ((0:ℝ), (0:ℝ), (0:ℝ))
    param_a := 0
    param_b := 0
    tab_face := TabPosition.TOP
    slot_face := TabPosition.TOP }

/-- A concrete tab pointing up the z axis from the origin. -/
def t8a : TabGeometry :=
  { width := 4
    depth := 10
    thickness := 2
    position := ((0:ℝ), (0:ℝ), (0:ℝ))
    direction := ((0:ℝ), (0:ℝ), (1:ℝ))
    normal := ((0:ℝ), (1:ℝ), (0:ℝ))
    corner_radius := 0 }

/-- The same tab shape shifted 4.2 mm along x: its bounding box clears the
first tab's box by a 0.2 mm gap, less than the 0.5 mm tolerance. -/
def t8b : TabGeometry :=
  { width := 4
    depth := 10
    thickness := 2
    position := ((4.2:ℝ), (0:ℝ), (0:ℝ))
    direction := ((0:ℝ), (0:ℝ), (1:ℝ))
    normal := ((0:ℝ), (1:ℝ), (0:ℝ))
    corner_radius := 0 }

/-- The profile of Scenario C: 2 inch square tube with 3.175 mm wall,
slot clearance 0.10, tab undersize 0.05, kerf compensation 0.15. -/
def scProfile : TubeProfile :=
  { name := "scenario-c"
    description := ""
    geometry :=
      { outer_width_mm := 50.8
        outer_height_mm := 50.8
        wall_thickness_mm := 3.175
        corner_radius_mm := 0
        inner_corner_radius_mm := 0 }
    tolerances :=
      { slot_clearance_mm := 0.10
        tab_undersize_mm := 0.05
        kerf_compensation_mm := 0.15
        corner_relief_radius_mm := 1.5
        finish_allowance_mm := 0 } }

/-- Evaluate a square root of a concrete perfect square. -/
theorem sqrt_eval {x y : ℝ} (hy : 0 ≤ y) (h : y * y = x) : Real.sqrt x = y := by
  rw [← h]; exact Real.sqrt_mul_self hy

/-- Every branch of the tab-face selection yields TOP. -/
theorem fiTabFaceOf_eq_top (m : MemberAxis) : fiTabFaceOf m = TabPosition.TOP := by
  unfold fiTabFaceOf; split_ifs <;> rfl

/-- When all three acceptance guards pass, find_intersection emits the
fiJoint record. -/
theorem find_intersection_some (a b : MemberAxis) (tol : ℝ)
    (h1 : ¬(fiParamA a b < -(fiMarginA a b tol) ∨ fiParamA a b > 1 + fiMarginA a b tol))
    (h2 : ¬(fiParamB a b < -(fiMarginB a b tol) ∨ fiParamB a b > 1 + fiMarginB a b tol))
    (h3 : ¬(fiDist a b > tol + (a.width + b.width) / 2)) :
    find_intersection a b tol = some (fiJoint a b) := by
  unfold find_intersection; rw [if_neg h1, if_neg h2, if_neg h3]

/-- When the second acceptance guard fires (and the first does not),
find_intersection rejects the pair. -/
theorem find_intersection_none₂ (a b : MemberAxis) (tol : ℝ)
    (h1 : ¬(fiParamA a b < -(fiMarginA a b tol) ∨ fiParamA a b > 1 + fiMarginA a b tol))
    (h2 : fiParamB a b < -(fiMarginB a b tol) ∨ fiParamB a b > 1 + fiMarginB a b tol) :
    find_intersection a b tol = none := by
  unfold find_intersection; rw [if_neg h1, if_pos h2]

/-- Any joint emitted by find_intersection is the fiJoint record of the
call. -/
theorem find_intersection_inv (a b : MemberAxis) (tol : ℝ) (j : Joint)
    (h : find_intersection a b tol = some j) : j = fiJoint a b := by
  unfold find_intersection at h
  split_ifs at h
  exact (Option.some.inj h).symm

/-- find_intersection emits a joint exactly when all three acceptance
guards pass. -/
theorem find_intersection_isSome_iff (a b : MemberAxis) (tol : ℝ) :
    (find_intersection a b tol).isSome = true ↔
      ¬(fiParamA a b < -(fiMarginA a b tol) ∨ fiParamA a b > 1 + fiMarginA a b tol) ∧
      ¬(fiParamB a b < -(fiMarginB a b tol) ∨ fiParamB a b > 1 + fiMarginB a b tol) ∧
      ¬(fiDist a b > tol + (a.width + b.width) / 2) := by
  unfold find_intersection
  split_ifs with g1 g2 g3 <;> simp [*]

/-- The dot-product terms of the closest-approach formula are symmetric in
the two lines. -/
theorem gramDenom_comm (d1 d2 : V3) : gramDenom d2 d1 = gramDenom d1 d2 := by
  unfold gramDenom vdot; ring

/-- In the non-parallel branch, swapping the two lines swaps t1 into t2. -/
theorem cplT1_swap (p1 d1 p2 d2 : V3) (h : ¬ |gramDenom d1 d2| < 1e-10) :
    cplT1 p2 d2 p1 d1 = cplT2 p1 d1 p2 d2 := by
  have h' : ¬ |gramDenom d2 d1| < 1e-10 := by rwa [gramDenom_comm]
  unfold cplT1 cplT2
  rw [if_neg h', if_neg h, gramDenom_comm]
  have hnum : vdot d2 d1 * vdot d1 (vsub p2 p1) - vdot d1 d1 * vdot d2 (vsub p2 p1) =
      vdot d1 d1 * vdot d2 (vsub p1 p2) - vdot d1 d2 * vdot d1 (vsub p1 p2) := by
    unfold vdot vsub; ring
  rw [hnum]

/-- In the non-parallel branch, swapping the two lines swaps t2 into t1. -/
theorem cplT2_swap (p1 d1 p2 d2 : V3) (h : ¬ |gramDenom d1 d2| < 1e-10) :
    cplT2 p2 d2 p1 d1 = cplT1 p1 d1 p2 d2 := by
  have h' : ¬ |gramDenom d2 d1| < 1e-10 := by rwa [gramDenom_comm]
  unfold cplT1 cplT2
  rw [if_neg h', if_neg h, gramDenom_comm]
  have hnum : vdot d2 d2 * vdot d1 (vsub p2 p1) - vdot d2 d1 * vdot d2 (vsub p2 p1) =
      vdot d1 d2 * vdot d2 (vsub p1 p2) - vdot d2 d2 * vdot d1 (vsub p1 p2) := by
    unfold vdot vsub; ring
  rw [hnum]

/-- In the non-parallel branch, the closest-approach distance does not
depend on the order of the two lines. -/
theorem cplDist_swap (p1 d1 p2 d2 : V3) (h : ¬ |gramDenom d1 d2| < 1e-10) :
    cplDist p2 d2 p1 d1 = cplDist p1 d1 p2 d2 := by
  unfold cplDist
  rw [cplT1_swap p1 d1 p2 d2 h, cplT2_swap p1 d1 p2 d2 h]
  unfold vnorm vsub vadd vscale
  congr 1
  ring

/-- Evaluation of the closest-approach triple for a non-parallel pair of
concrete lines whose closest points coincide. -/
theorem fiT_eval_nonpar (a b : MemberAxis) (da db : V3) (t1 t2 : ℝ)
    (hda : fiDir a = da) (hdb : fiDir b = db)
    (hden : ¬ |gramDenom da db| < 1e-10)
    (h1 : (vdot da db * vdot db (vsub a.start b.start) -
           vdot db db * vdot da (vsub a.start b.start)) / gramDenom da db = t1)
    (h2 : (vdot da da * vdot db (vsub a.start b.start) -
           vdot da db * vdot da (vsub a.start b.start)) / gramDenom da db = t2)
    (hd : vsub (vadd a.start (vscale t1 da)) (vadd b.start (vscale t2 db)) =
          ((0:ℝ), (0:ℝ), (0:ℝ))) :
    fiT a b = (t1, t2, 0) := by
  have e1 : cplT1 a.start da b.start db = t1 := by
    unfold cplT1; rw [if_neg hden]; exact h1
  have e2 : cplT2 a.start da b.start db = t2 := by
    unfold cplT2; rw [if_neg hden]; exact h2
  have e3 : cplDist a.start da b.start db = 0 := by
    unfold cplDist; rw [e1, e2, hd]; unfold vnorm; norm_num
  unfold fiT closestPointsOnLines
  rw [hda, hdb, e1, e2, e3]

theorem axisX_len : axisX.length = 1000 := by
  have h : vsub axisX.end_ axisX.start = ((1000:ℝ), (0:ℝ), (0:ℝ)) := by
    norm_num [vsub, axisX]
  unfold MemberAxis.length; rw [h]; unfold vnorm
  exact sqrt_eval (by norm_num) (by norm_num)

theorem axisX_dir : fiDir axisX = ((1:ℝ), (0:ℝ), (0:ℝ)) := by
  unfold fiDir; rw [axisX_len, if_pos (by norm_num : (1000:ℝ) > 1e-6)]
  norm_num [vscale, vsub, axisX]

theorem scB_len : scB.length = 550 := by
  have h : vsub scB.end_ scB.start = ((0:ℝ), (550:ℝ), (0:ℝ)) := by
    norm_num [vsub, scB]
  unfold MemberAxis.length; rw [h]; unfold vnorm
  exact sqrt_eval (by norm_num) (by norm_num)

theorem scB_dir : fiDir scB = ((0:ℝ), (1:ℝ), (0:ℝ)) := by
  unfold fiDir; rw [scB_len, if_pos (by norm_num : (550:ℝ) > 1e-6)]
  norm_num [vscale, vsub, scB]

/-- The x and y axis directions are not parallel for the closest-point
formula. -/
theorem gram_xy : ¬ |gramDenom ((1:ℝ), (0:ℝ), (0:ℝ)) ((0:ℝ), (1:ℝ), (0:ℝ))| < 1e-10 := by
  norm_num [gramDenom, vdot]

theorem scAB_T : fiT axisX scB = ((500:ℝ), (50:ℝ), (0:ℝ)) := by
  refine fiT_eval_nonpar axisX scB _ _ 500 50 axisX_dir scB_dir gram_xy ?_ ?_ ?_ <;>
    norm_num [vdot, vsub, vadd, vscale, gramDenom, axisX, scB]

theorem scAB_pa : fiParamA axisX scB = 1 / 2 := by
  unfold fiParamA
  rw [axisX_len, if_pos (by norm_num : (1000:ℝ) > 1e-6), scAB_T]; norm_num

theorem scAB_pb : fiParamB axisX scB = 1 / 11 := by
  unfold fiParamB
  rw [scB_len, if_pos (by norm_num : (550:ℝ) > 1e-6), scAB_T]; norm_num

theorem scAB_ca : fiClampA axisX scB = 1 / 2 := by
  unfold fiClampA; rw [scAB_pa]; norm_num

theorem scAB_cb : fiClampB axisX scB = 1 / 11 := by
  unfold fiClampB; rw [scAB_pb]; norm_num

theorem scAB_dot : fiDotDirs axisX scB = 0 := by
  unfold fiDotDirs; rw [axisX_dir, scB_dir]; norm_num [vdot]

theorem scB_ne_axisX : scB ≠ axisX :=
  fun h => absurd (congrArg (fun m => m.start.1) h) (by norm_num [axisX, scB])

theorem scAB_notendA : ¬ fiIsEnd (fiClampA axisX scB) := by
  rw [scAB_ca]; norm_num [fiIsEnd]

theorem scAB_notendB : ¬ fiIsEnd (fiClampB axisX scB) := by
  rw [scAB_cb]; norm_num [fiIsEnd]

theorem scAB_type : fiJointType axisX scB = JointType.CROSS := by
  unfold fiJointType
  rw [scAB_dot]
  rw [if_neg (by norm_num : ¬ (0:ℝ) > 0.99), if_pos (by norm_num : (0:ℝ) < 0.01)]
  rw [if_neg scAB_notendA, if_neg scAB_notendB]

theorem scAB_slot : fiSlotMember axisX scB = scB := by
  unfold fiSlotMember; rw [if_neg scAB_notendB]

theorem scAB_tab : fiTabMember axisX scB = axisX := by
  unfold fiTabMember; rw [if_neg scAB_notendB]

theorem scAB_eval : find_intersection axisX scB 1 = some jScA := by
  have h1 : ¬(fiParamA axisX scB < -(fiMarginA axisX scB 1) ∨
      fiParamA axisX scB > 1 + fiMarginA axisX scB 1) := by
    rw [scAB_pa]
    unfold fiMarginA
    rw [axisX_len, if_pos (by norm_num : (1000:ℝ) > 1e-6)]
    norm_num [axisX]
  have h2 : ¬(fiParamB axisX scB < -(fiMarginB axisX scB 1) ∨
      fiParamB axisX scB > 1 + fiMarginB axisX scB 1) := by
    rw [scAB_pb]
    unfold fiMarginB
    rw [scB_len, if_pos (by norm_num : (550:ℝ) > 1e-6)]
    norm_num [scB]
  have h3 : ¬(fiDist axisX scB > 1 + (axisX.width + scB.width) / 2) := by
    unfold fiDist; rw [scAB_T]; norm_num [axisX, scB]
  rw [find_intersection_some axisX scB 1 h1 h2 h3]
  unfold fiJoint
  rw [scAB_type, scAB_slot, scAB_tab, scAB_ca, scAB_cb]
  rw [if_neg scB_ne_axisX, if_neg (fun h : axisX = scB => scB_ne_axisX h.symm)]
  rw [fiTabFaceOf_eq_top]
  have hip : axisX.point_at_param (1 / 2) = ((500:ℝ), (0:ℝ), (0:ℝ)) := by
    norm_num [MemberAxis.point_at_param, axisX]
  rw [hip]
  rfl

theorem bndB_len : bndB.length = 100 := by
  have h : vsub bndB.end_ bndB.start = ((0:ℝ), (100:ℝ), (0:ℝ)) := by
    norm_num [vsub, bndB]
  unfold MemberAxis.length; rw [h]; unfold vnorm
  exact sqrt_eval (by norm_num) (by norm_num)

theorem bndB_dir : fiDir bndB = ((0:ℝ), (1:ℝ), (0:ℝ)) := by
  unfold fiDir; rw [bndB_len, if_pos (by norm_num : (100:ℝ) > 1e-6)]
  norm_num [vscale, vsub, bndB]

theorem bnd_T : fiT axisX bndB = ((500:ℝ), (1:ℝ), (0:ℝ)) := by
  refine fiT_eval_nonpar axisX bndB _ _ 500 1 axisX_dir bndB_dir gram_xy ?_ ?_ ?_ <;>
    norm_num [vdot, vsub, vadd, vscale, gramDenom, axisX, bndB]

theorem bnd_pa : fiParamA axisX bndB = 1 / 2 := by
  unfold fiParamA
  rw [axisX_len, if_pos (by norm_num : (1000:ℝ) > 1e-6), bnd_T]; norm_num

theorem bnd_pb : fiParamB axisX bndB = 1 / 100 := by
  unfold fiParamB
  rw [bndB_len, if_pos (by norm_num : (100:ℝ) > 1e-6), bnd_T]

theorem bnd_ca : fiClampA axisX bndB = 1 / 2 := by
  unfold fiClampA; rw [bnd_pa]; norm_num

theorem bnd_cb : fiClampB axisX bndB = 1 / 100 := by
  unfold fiClampB; rw [bnd_pb]; norm_num

theorem bnd_dot : fiDotDirs axisX bndB = 0 := by
  unfold fiDotDirs; rw [axisX_dir, bndB_dir]; norm_num [vdot]

theorem bndB_ne_axisX : bndB ≠ axisX :=
  fun h => absurd (congrArg (fun m => m.start.1) h) (by norm_num [axisX, bndB])

theorem bnd_notendA : ¬ fiIsEnd (fiClampA axisX bndB) := by
  rw [bnd_ca]; norm_num [fiIsEnd]

theorem bnd_notendB : ¬ fiIsEnd (fiClampB axisX bndB) := by
  rw [bnd_cb]; norm_num [fiIsEnd]

theorem bnd_type : fiJointType axisX bndB = JointType.CROSS := by
  unfold fiJointType
  rw [bnd_dot]
  rw [if_neg (by norm_num : ¬ (0:ℝ) > 0.99), if_pos (by norm_num : (0:ℝ) < 0.01)]
  rw [if_neg bnd_notendA, if_neg bnd_notendB]

theorem bnd_slot : fiSlotMember axisX bndB = bndB := by
  unfold fiSlotMember; rw [if_neg bnd_notendB]

theorem bnd_tab : fiTabMember axisX bndB = axisX := by
  unfold fiTabMember; rw [if_neg bnd_notendB]

theorem bnd_eval : find_intersection axisX bndB 1 = some jBnd := by
  have h1 : ¬(fiParamA axisX bndB < -(fiMarginA axisX bndB 1) ∨
      fiParamA axisX bndB > 1 + fiMarginA axisX bndB 1) := by
    rw [bnd_pa]
    unfold fiMarginA
    rw [axisX_len, if_pos (by norm_num : (1000:ℝ) > 1e-6)]
    norm_num [axisX]
  have h2 : ¬(fiParamB axisX bndB < -(fiMarginB axisX bndB 1) ∨
      fiParamB axisX bndB > 1 + fiMarginB axisX bndB 1) := by
    rw [bnd_pb]
    unfold fiMarginB
    rw [bndB_len, if_pos (by norm_num : (100:ℝ) > 1e-6)]
    norm_num [bndB]
  have h3 : ¬(fiDist axisX bndB > 1 + (axisX.width + bndB.width) / 2) := by
    unfold fiDist; rw [bnd_T]; norm_num [axisX, bndB]
  rw [find_intersection_some axisX bndB 1 h1 h2 h3]
  unfold fiJoint
  rw [bnd_type, bnd_slot, bnd_tab, bnd_ca, bnd_cb]
  rw [if_neg bndB_ne_axisX, if_neg (fun h : axisX = bndB => bndB_ne_axisX h.symm)]
  rw [fiTabFaceOf_eq_top]
  have hip : axisX.point_at_param (1 / 2) = ((500:ℝ), (0:ℝ), (0:ℝ)) := by
    norm_num [MemberAxis.point_at_param, axisX]
  rw [hip]
  rfl

theorem cornB_len : cornB.length = 100 := by
  have h : vsub cornB.end_ cornB.start = ((0:ℝ), (100:ℝ), (0:ℝ)) := by
    norm_num [vsub, cornB]
  unfold MemberAxis.length; rw [h]; unfold vnorm
  exact sqrt_eval (by norm_num) (by norm_num)

theorem cornB_dir : fiDir cornB = ((0:ℝ), (1:ℝ), (0:ℝ)) := by
  unfold fiDir; rw [cornB_len, if_pos (by norm_num : (100:ℝ) > 1e-6)]
  norm_num [vscale, vsub, cornB]

theorem corn_T : fiT axisX cornB = ((1000:ℝ), (1:ℝ), (0:ℝ)) := by
  refine fiT_eval_nonpar axisX cornB _ _ 1000 1 axisX_dir cornB_dir gram_xy ?_ ?_ ?_ <;>
    norm_num [vdot, vsub, vadd, vscale, gramDenom, axisX, cornB]

theorem corn_pa : fiParamA axisX cornB = 1 := by
  unfold fiParamA
  rw [axisX_len, if_pos (by norm_num : (1000:ℝ) > 1e-6), corn_T]; norm_num

theorem corn_pb : fiParamB axisX cornB = 1 / 100 := by
  unfold fiParamB
  rw [cornB_len, if_pos (by norm_num : (100:ℝ) > 1e-6), corn_T]

theorem corn_ca : fiClampA axisX cornB = 1 := by
  unfold fiClampA; rw [corn_pa]; norm_num

theorem corn_cb : fiClampB axisX cornB = 1 / 100 := by
  unfold fiClampB; rw [corn_pb]; norm_num

theorem corn_dot : fiDotDirs axisX cornB = 0 := by
  unfold fiDotDirs; rw [axisX_dir, cornB_dir]; norm_num [vdot]

theorem cornB_ne_axisX : cornB ≠ axisX :=
  fun h => absurd (congrArg (fun m => m.start.1) h) (by norm_num [axisX, cornB])

theorem corn_endA : fiIsEnd (fiClampA axisX cornB) := by
  rw [corn_ca]; norm_num [fiIsEnd]

theorem corn_notendB : ¬ fiIsEnd (fiClampB axisX cornB) := by
  rw [corn_cb]; norm_num [fiIsEnd]

theorem corn_type : fiJointType axisX cornB = JointType.T_JOINT := by
  unfold fiJointType
  rw [corn_dot]
  rw [if_neg (by norm_num : ¬ (0:ℝ) > 0.99), if_pos (by norm_num : (0:ℝ) < 0.01)]
  rw [if_pos corn_endA, if_neg corn_notendB]

theorem corn_slot : fiSlotMember axisX cornB = cornB := by
  unfold fiSlotMember; rw [if_neg corn_notendB]

theorem corn_tab : fiTabMember axisX cornB = axisX := by
  unfold fiTabMember; rw [if_neg corn_notendB]

theorem corn_eval : find_intersection axisX cornB 1 = some jCorn3 := by
  have h1 : ¬(fiParamA axisX cornB < -(fiMarginA axisX cornB 1) ∨
      fiParamA axisX cornB > 1 + fiMarginA axisX cornB 1) := by
    rw [corn_pa]
    unfold fiMarginA
    rw [axisX_len, if_pos (by norm_num : (1000:ℝ) > 1e-6)]
    norm_num [axisX]
  have h2 : ¬(fiParamB axisX cornB < -(fiMarginB axisX cornB 1) ∨
      fiParamB axisX cornB > 1 + fiMarginB axisX cornB 1) := by
    rw [corn_pb]
    unfold fiMarginB
    rw [cornB_len, if_pos (by norm_num : (100:ℝ) > 1e-6)]
    norm_num [cornB]
  have h3 : ¬(fiDist axisX cornB > 1 + (axisX.width + cornB.width) / 2) := by
    unfold fiDist; rw [corn_T]; norm_num [axisX, cornB]
  rw [find_intersection_some axisX cornB 1 h1 h2 h3]
  unfold fiJoint
  rw [corn_type, corn_slot, corn_tab, corn_ca, corn_cb]
  rw [if_neg cornB_ne_axisX, if_neg (fun h : axisX = cornB => cornB_ne_axisX h.symm)]
  rw [fiTabFaceOf_eq_top]
  have hip : axisX.point_at_param (1 : ℝ) = ((1000:ℝ), (0:ℝ), (0:ℝ)) := by
    norm_num [MemberAxis.point_at_param, axisX]
  rw [hip]
  rfl

theorem vrtA_len : vrtA.length = 500 := by
  have h : vsub vrtA.end_ vrtA.start = ((0:ℝ), (0:ℝ), (500:ℝ)) := by
    norm_num [vsub, vrtA]
  unfold MemberAxis.length; rw [h]; unfold vnorm
  exact sqrt_eval (by norm_num) (by norm_num)

theorem vrtA_dir : fiDir vrtA = ((0:ℝ), (0:ℝ), (1:ℝ)) := by
  unfold fiDir; rw [vrtA_len, if_pos (by norm_num : (500:ℝ) > 1e-6)]
  norm_num [vscale, vsub, vrtA]

theorem horB_len : horB.length = 500 := by
  have h : vsub horB.end_ horB.start = ((500:ℝ), (0:ℝ), (0:ℝ)) := by
    norm_num [vsub, horB]
  unfold MemberAxis.length; rw [h]; unfold vnorm
  exact sqrt_eval (by norm_num) (by norm_num)

theorem horB_dir : fiDir horB = ((1:ℝ), (0:ℝ), (0:ℝ)) := by
  unfold fiDir; rw [horB_len, if_pos (by norm_num : (500:ℝ) > 1e-6)]
  norm_num [vscale, vsub, horB]

/-- The z and x axis directions are not parallel for the closest-point
formula. -/
theorem gram_zx : ¬ |gramDenom ((0:ℝ), (0:ℝ), (1:ℝ)) ((1:ℝ), (0:ℝ), (0:ℝ))| < 1e-10 := by
  norm_num [gramDenom, vdot]

theorem scenB_T : fiT vrtA horB = ((500:ℝ), (0:ℝ), (0:ℝ)) := by
  refine fiT_eval_nonpar vrtA horB _ _ 500 0 vrtA_dir horB_dir gram_zx ?_ ?_ ?_ <;>
    norm_num [vdot, vsub, vadd, vscale, gramDenom, vrtA, horB]

theorem scenB_pa : fiParamA vrtA horB = 1 := by
  unfold fiParamA
  rw [vrtA_len, if_pos (by norm_num : (500:ℝ) > 1e-6), scenB_T]; norm_num

theorem scenB_pb : fiParamB vrtA horB = 0 := by
  unfold fiParamB
  rw [horB_len, if_pos (by norm_num : (500:ℝ) > 1e-6), scenB_T]; norm_num

theorem scenB_ca : fiClampA vrtA horB = 1 := by
  unfold fiClampA; rw [scenB_pa]; norm_num

theorem scenB_cb : fiClampB vrtA horB = 0 := by
  unfold fiClampB; rw [scenB_pb]; norm_num

theorem scenB_dot : fiDotDirs vrtA horB = 0 := by
  unfold fiDotDirs; rw [vrtA_dir, horB_dir]; norm_num [vdot]

theorem scenB_endA : fiIsEnd (fiClampA vrtA horB) := by
  rw [scenB_ca]; norm_num [fiIsEnd]

theorem scenB_endB : fiIsEnd (fiClampB vrtA horB) := by
  rw [scenB_cb]; norm_num [fiIsEnd]

theorem scenB_type : fiJointType vrtA horB = JointType.CORNER := by
  unfold fiJointType
  rw [scenB_dot]
  rw [if_neg (by norm_num : ¬ (0:ℝ) > 0.99), if_pos (by norm_num : (0:ℝ) < 0.01)]
  rw [if_pos scenB_endA, if_pos scenB_endB]

theorem scenB_slot : fiSlotMember vrtA horB = vrtA := by
  unfold fiSlotMember; rw [if_pos scenB_endB]

theorem scenB_tab : fiTabMember vrtA horB = horB := by
  unfold fiTabMember; rw [if_pos scenB_endB]

theorem scenB_eval : find_intersection vrtA horB 1 = some jScB := by
  have h1 : ¬(fiParamA vrtA horB < -(fiMarginA vrtA horB 1) ∨
      fiParamA vrtA horB > 1 + fiMarginA vrtA horB 1) := by
    rw [scenB_pa]
    unfold fiMarginA
    rw [vrtA_len, if_pos (by norm_num : (500:ℝ) > 1e-6)]
    norm_num [vrtA]
  have h2 : ¬(fiParamB vrtA horB < -(fiMarginB vrtA horB 1) ∨
      fiParamB vrtA horB > 1 + fiMarginB vrtA horB 1) := by
    rw [scenB_pb]
    unfold fiMarginB
    rw [horB_len, if_pos (by norm_num : (500:ℝ) > 1e-6)]
    norm_num [horB]
  have h3 : ¬(fiDist vrtA horB > 1 + (vrtA.width + horB.width) / 2) := by
    unfold fiDist; rw [scenB_T]; norm_num [vrtA, horB]
  rw [find_intersection_some vrtA horB 1 h1 h2 h3]
  unfold fiJoint
  rw [scenB_type, scenB_slot, scenB_tab, scenB_ca, scenB_cb]
  rw [if_pos rfl, if_pos rfl]
  rw [fiTabFaceOf_eq_top]
  have hip : vrtA.point_at_param (1 : ℝ) = ((0:ℝ), (0:ℝ), (500:ℝ)) := by
    norm_num [MemberAxis.point_at_param, vrtA]
  rw [hip]
  rfl

/-- Evaluation of the closest-approach triple in the parallel branch when
the projected points coincide. -/
theorem fiT_eval_par (a b : MemberAxis) (da db : V3) (t2 : ℝ)
    (hda : fiDir a = da) (hdb : fiDir b = db)
    (hden : |gramDenom da db| < 1e-10)
    (hb : |vdot da db| > 1e-10)
    (h2 : vdot da (vsub a.start b.start) / vdot da db = t2)
    (hd : vsub (vadd a.start (vscale 0 da)) (vadd b.start (vscale t2 db)) =
          ((0:ℝ), (0:ℝ), (0:ℝ))) :
    fiT a b = (0, t2, 0) := by
  have e1 : cplT1 a.start da b.start db = 0 := by
    unfold cplT1; rw [if_pos hden]
  have e2 : cplT2 a.start da b.start db = t2 := by
    unfold cplT2; rw [if_pos hden, if_pos hb]; exact h2
  have e3 : cplDist a.start da b.start db = 0 := by
    unfold cplDist; rw [e1, e2, hd]; unfold vnorm; norm_num
  unfold fiT closestPointsOnLines
  rw [hda, hdb, e1, e2, e3]

theorem parB_len : parB.length = 100 := by
  have h : vsub parB.end_ parB.start = ((100:ℝ), (0:ℝ), (0:ℝ)) := by
    norm_num [vsub, parB]
  unfold MemberAxis.length; rw [h]; unfold vnorm
  exact sqrt_eval (by norm_num) (by norm_num)

theorem parB_dir : fiDir parB = ((1:ℝ), (0:ℝ), (0:ℝ)) := by
  unfold fiDir; rw [parB_len, if_pos (by norm_num : (100:ℝ) > 1e-6)]
  norm_num [vscale, vsub, parB]

/-- The x direction is parallel to itself for the closest-point formula. -/
theorem gram_xx : |gramDenom ((1:ℝ), (0:ℝ), (0:ℝ)) ((1:ℝ), (0:ℝ), (0:ℝ))| < 1e-10 := by
  norm_num [gramDenom, vdot]

theorem parAB_T : fiT axisX parB = ((0:ℝ), (-400:ℝ), (0:ℝ)) := by
  refine fiT_eval_par axisX parB _ _ (-400) axisX_dir parB_dir gram_xx ?_ ?_ ?_ <;>
    norm_num [vdot, vsub, vadd, vscale, axisX, parB]

theorem parAB_pb : fiParamB axisX parB = -4 := by
  unfold fiParamB
  rw [parB_len, if_pos (by norm_num : (100:ℝ) > 1e-6), parAB_T]; norm_num

/-- Scanned as (axisX, parB), the pair is rejected: parB's normalised
parameter -4 falls far outside the acceptance margin. -/
theorem parAB_eval : find_intersection axisX parB 1 = none := by
  have h1 : ¬(fiParamA axisX parB < -(fiMarginA axisX parB 1) ∨
      fiParamA axisX parB > 1 + fiMarginA axisX parB 1) := by
    have hpa : fiParamA axisX parB = 0 := by
      unfold fiParamA
      rw [axisX_len, if_pos (by norm_num : (1000:ℝ) > 1e-6), parAB_T]; norm_num
    rw [hpa]
    unfold fiMarginA
    rw [axisX_len, if_pos (by norm_num : (1000:ℝ) > 1e-6)]
    norm_num [axisX]
  have h2 : fiParamB axisX parB < -(fiMarginB axisX parB 1) ∨
      fiParamB axisX parB > 1 + fiMarginB axisX parB 1 := by
    rw [parAB_pb]
    unfold fiMarginB
    rw [parB_len, if_pos (by norm_num : (100:ℝ) > 1e-6)]
    left
    norm_num [parB]
  exact find_intersection_none₂ axisX parB 1 h1 h2

theorem parBA_T : fiT parB axisX = ((0:ℝ), (400:ℝ), (0:ℝ)) := by
  refine fiT_eval_par parB axisX _ _ 400 parB_dir axisX_dir gram_xx ?_ ?_ ?_ <;>
    norm_num [vdot, vsub, vadd, vscale, axisX, parB]

theorem parBA_pa : fiParamA parB axisX = 0 := by
  unfold fiParamA
  rw [parB_len, if_pos (by norm_num : (100:ℝ) > 1e-6), parBA_T]; norm_num

theorem parBA_pb : fiParamB parB axisX = 2 / 5 := by
  unfold fiParamB
  rw [axisX_len, if_pos (by norm_num : (1000:ℝ) > 1e-6), parBA_T]; norm_num

theorem parBA_ca : fiClampA parB axisX = 0 := by
  unfold fiClampA; rw [parBA_pa]; norm_num

theorem parBA_cb : fiClampB parB axisX = 2 / 5 := by
  unfold fiClampB; rw [parBA_pb]; norm_num

theorem parBA_dot : fiDotDirs parB axisX = 1 := by
  unfold fiDotDirs; rw [parB_dir, axisX_dir]; norm_num [vdot]

theorem parBA_notendB : ¬ fiIsEnd (fiClampB parB axisX) := by
  rw [parBA_cb]; norm_num [fiIsEnd]

theorem parBA_type : fiJointType parB axisX = JointType.INLINE := by
  unfold fiJointType
  rw [parBA_dot]
  rw [if_pos (by norm_num : (1:ℝ) > 0.99)]

theorem parBA_slot : fiSlotMember parB axisX = axisX := by
  unfold fiSlotMember; rw [if_neg parBA_notendB]

theorem parBA_tab : fiTabMember parB axisX = parB := by
  unfold fiTabMember; rw [if_neg parBA_notendB]

theorem axisX_ne_parB : axisX ≠ parB :=
  fun h => absurd (congrArg (fun m => m.start.1) h) (by norm_num [axisX, parB])

theorem parBA_eval : find_intersection parB axisX 1 = some jInl := by
  have h1 : ¬(fiParamA parB axisX < -(fiMarginA parB axisX 1) ∨
      fiParamA parB axisX > 1 + fiMarginA parB axisX 1) := by
    rw [parBA_pa]
    unfold fiMarginA
    rw [parB_len, if_pos (by norm_num : (100:ℝ) > 1e-6)]
    norm_num [parB]
  have h2 : ¬(fiParamB parB axisX < -(fiMarginB parB axisX 1) ∨
      fiParamB parB axisX > 1 + fiMarginB parB axisX 1) := by
    rw [parBA_pb]
    unfold fiMarginB
    rw [axisX_len, if_pos (by norm_num : (1000:ℝ) > 1e-6)]
    norm_num [axisX]
  have h3 : ¬(fiDist parB axisX > 1 + (parB.width + axisX.width) / 2) := by
    unfold fiDist; rw [parBA_T]; norm_num [axisX, parB]
  rw [find_intersection_some parB axisX 1 h1 h2 h3]
  unfold fiJoint
  rw [parBA_type, parBA_slot, parBA_tab, parBA_ca, parBA_cb]
  rw [if_neg axisX_ne_parB, if_neg (fun h : parB = axisX => axisX_ne_parB h.symm)]
  rw [fiTabFaceOf_eq_top]
  have hip : parB.point_at_param (0 : ℝ) = ((400:ℝ), (0:ℝ), (0:ℝ)) := by
    norm_num [MemberAxis.point_at_param, parB]
  rw [hip]
  rfl

theorem degD_len : degD.length = 0 := by
  have h : vsub degD.end_ degD.start = ((0:ℝ), (0:ℝ), (0:ℝ)) := by
    norm_num [vsub, degD]
  unfold MemberAxis.length; rw [h]; unfold vnorm; norm_num

theorem degD_dir : fiDir degD = ((0:ℝ), (0:ℝ), (1:ℝ)) := by
  unfold fiDir; rw [degD_len, if_neg (by norm_num : ¬ (0:ℝ) > 1e-6)]

theorem memM_len : memM.length = 100 := by
  have h : vsub memM.end_ memM.start = ((100:ℝ), (0:ℝ), (0:ℝ)) := by
    norm_num [vsub, memM]
  unfold MemberAxis.length; rw [h]; unfold vnorm
  exact sqrt_eval (by norm_num) (by norm_num)

theorem memM_dir : fiDir memM = ((1:ℝ), (0:ℝ), (0:ℝ)) := by
  unfold fiDir; rw [memM_len, if_pos (by norm_num : (100:ℝ) > 1e-6)]
  norm_num [vscale, vsub, memM]

theorem degDM_T : fiT degD memM = ((0:ℝ), (0:ℝ), (0:ℝ)) := by
  refine fiT_eval_nonpar degD memM _ _ 0 0 degD_dir memM_dir gram_zx ?_ ?_ ?_ <;>
    norm_num [vdot, vsub, vadd, vscale, gramDenom, degD, memM]

theorem degDM_pa : fiParamA degD memM = 0 := by
  unfold fiParamA
  rw [degD_len, if_neg (by norm_num : ¬ (0:ℝ) > 1e-6)]

theorem degDM_pb : fiParamB degD memM = 0 := by
  unfold fiParamB
  rw [memM_len, if_pos (by norm_num : (100:ℝ) > 1e-6), degDM_T]; norm_num

theorem degDM_ca : fiClampA degD memM = 0 := by
  unfold fiClampA; rw [degDM_pa]; norm_num

theorem degDM_cb : fiClampB degD memM = 0 := by
  unfold fiClampB; rw [degDM_pb]; norm_num

theorem degDM_dot : fiDotDirs degD memM = 0 := by
  unfold fiDotDirs; rw [degD_dir, memM_dir]; norm_num [vdot]

theorem degDM_endA : fiIsEnd (fiClampA degD memM) := by
  rw [degDM_ca]; norm_num [fiIsEnd]

theorem degDM_endB : fiIsEnd (fiClampB degD memM) := by
  rw [degDM_cb]; norm_num [fiIsEnd]

theorem degDM_type : fiJointType degD memM = JointType.CORNER := by
  unfold fiJointType
  rw [degDM_dot]
  rw [if_neg (by norm_num : ¬ (0:ℝ) > 0.99), if_pos (by norm_num : (0:ℝ) < 0.01)]
  rw [if_pos degDM_endA, if_pos degDM_endB]

theorem degDM_slot : fiSlotMember degD memM = degD := by
  unfold fiSlotMember; rw [if_pos degDM_endB]

theorem degDM_tab : fiTabMember degD memM = memM := by
  unfold fiTabMember; rw [if_pos degDM_endB]

theorem degDM_eval : find_intersection degD memM 1 = some jDM := by
  have h1 : ¬(fiParamA degD memM < -(fiMarginA degD memM 1) ∨
      fiParamA degD memM > 1 + fiMarginA degD memM 1) := by
    rw [degDM_pa]
    unfold fiMarginA
    rw [degD_len, if_neg (by norm_num : ¬ (0:ℝ) > 1e-6)]
    norm_num
  have h2 : ¬(fiParamB degD memM < -(fiMarginB degD memM 1) ∨
      fiParamB degD memM > 1 + fiMarginB degD memM 1) := by
    rw [degDM_pb]
    unfold fiMarginB
    rw [memM_len, if_pos (by norm_num : (100:ℝ) > 1e-6)]
    norm_num [memM]
  have h3 : ¬(fiDist degD memM > 1 + (degD.width + memM.width) / 2) := by
    unfold fiDist; rw [degDM_T]; norm_num [degD, memM]
  rw [find_intersection_some degD memM 1 h1 h2 h3]
  unfold fiJoint
  rw [degDM_type, degDM_slot, degDM_tab, degDM_ca, degDM_cb]
  rw [if_pos rfl, if_pos rfl]
  rw [fiTabFaceOf_eq_top]
  have hip : degD.point_at_param (0 : ℝ) = ((0:ℝ), (0:ℝ), (0:ℝ)) := by
    norm_num [MemberAxis.point_at_param, degD]
  rw [hip]
  rfl

/-- The full pairwise scan over the two-member frame containing the
degenerate member returns exactly the joint above. -/
theorem degDM_detect : detect_all_joints [degD, memM] 1 = [jDM] := by
  simp [detect_all_joints, List.filterMap_cons, degDM_eval]

/-- The box intersection test is true exactly when the boxes are not
separated by more than the tolerance on any axis. -/
theorem intersects_iff (s o : BoundingBox) (tol : ℝ) :
    BoundingBox.intersects s o tol = true ↔
      ¬(s.max_x < o.min_x - tol) ∧ ¬(s.min_x > o.max_x + tol) ∧
      ¬(s.max_y < o.min_y - tol) ∧ ¬(s.min_y > o.max_y + tol) ∧
      ¬(s.max_z < o.min_z - tol) ∧ ¬(s.min_z > o.max_z + tol) := by
  unfold BoundingBox.intersects
  simp [not_or]
  tauto

/-- Claim C1, counterexample: on Scenario A the emitted joint is CROSS,
not T_JOINT.  Member B starts 50 mm short of A's centerline, so its
normalised parameter is 1/11, which the strict 0.01 end test rejects. -/
theorem spec_C1_counterexample :
    (find_intersection axisX scB 1).map Joint.joint_type = some JointType.CROSS ∧
    JointType.CROSS ≠ JointType.T_JOINT := by
  constructor
  · rw [scAB_eval]; rfl
  · decide

/-- Claim C1, amended: on Scenario A find_intersection returns exactly one
joint, classified CROSS, with tab-bearer A (member_b), slot-receiver B
(member_a), param_a = 1/11 and param_b = 1/2, meeting at (500, 0, 0). -/
theorem spec_C1_amended :
    find_intersection axisX scB 1 = some jScA ∧
    jScA.joint_type = JointType.CROSS ∧ jScA.member_b = axisX ∧
    jScA.member_a = scB ∧ jScA.param_a = 1 / 11 ∧ jScA.param_b = 1 / 2 ∧
    jScA.intersection_point = ((500:ℝ), (0:ℝ), (0:ℝ)) :=
  ⟨scAB_eval, rfl, rfl, rfl, rfl, rfl, rfl⟩

/-- Claim C2, counterexample: at a boundary input where member B's clamped
parameter is exactly 0.01 (at an end per the claim's inclusive test), the
emitted joint is non-INLINE yet the tab-bearer is A, not B. -/
theorem spec_C2_counterexample :
    fiClampB axisX bndB ≤ 0.01 ∧
    (find_intersection axisX bndB 1).map Joint.joint_type = some JointType.CROSS ∧
    JointType.CROSS ≠ JointType.INLINE ∧
    (find_intersection axisX bndB 1).map Joint.member_b = some axisX ∧
    axisX ≠ bndB := by
  refine ⟨?_, ?_, by decide, ?_, fun h => bndB_ne_axisX h.symm⟩
  · rw [bnd_cb]; norm_num
  · rw [bnd_eval]; rfl
  · rw [bnd_eval]; rfl

/-- Claim C2, amended: with the source's strict end test (parameter
strictly below 0.01 or strictly above 0.99), the member whose own clamped
parameter is at an end is the tab-bearer: B whenever B's parameter is at
an end (including the both-end CORNER case), A when only A's is.  On
Scenario B the joint is a CORNER with tab-bearer B. -/
theorem spec_C2_amended :
    (∀ a b : MemberAxis, ∀ tol : ℝ, ∀ j : Joint,
      find_intersection a b tol = some j →
      (fiIsEnd (fiClampB a b) → j.member_b = b ∧ j.member_a = a) ∧
      (¬ fiIsEnd (fiClampB a b) → fiIsEnd (fiClampA a b) →
        j.member_b = a ∧ j.member_a = b)) ∧
    find_intersection vrtA horB 1 = some jScB ∧
    jScB.joint_type = JointType.CORNER ∧ jScB.member_b = horB := by
  refine ⟨?_, scenB_eval, rfl, rfl⟩
  intro a b tol j h
  have hj := find_intersection_inv a b tol j h
  subst hj
  constructor
  · intro hend
    constructor
    · show fiTabMember a b = b
      unfold fiTabMember; rw [if_pos hend]
    · show fiSlotMember a b = a
      unfold fiSlotMember; rw [if_pos hend]
  · intro hnot _
    constructor
    · show fiTabMember a b = a
      unfold fiTabMember; rw [if_neg hnot]
    · show fiSlotMember a b = b
      unfold fiSlotMember; rw [if_neg hnot]

/-- Claim C2, witness: the amended tie-break applied to Scenario B. -/
theorem spec_C2_witness : jScB.member_b = horB ∧ jScB.member_a = vrtA :=
  (spec_C2_amended.1 vrtA horB 1 jScB scenB_eval).1 scenB_endB

/-- Claim C3, counterexample: a perpendicular pair in which both clamped
parameters are at an end per the claim's inclusive 0.01/0.99 test
(A at exactly 1, B at exactly 0.01), yet the code classifies T_JOINT, not
CORNER, because its end test is strict. -/
theorem spec_C3_counterexample :
    fiDotDirs axisX cornB < 0.01 ∧
    (fiClampA axisX cornB ≤ 0.01 ∨ fiClampA axisX cornB ≥ 0.99) ∧
    (fiClampB axisX cornB ≤ 0.01 ∨ fiClampB axisX cornB ≥ 0.99) ∧
    (find_intersection axisX cornB 1).map Joint.joint_type = some JointType.T_JOINT ∧
    JointType.T_JOINT ≠ JointType.CORNER := by
  refine ⟨?_, ?_, ?_, ?_, by decide⟩
  · rw [corn_dot]; norm_num
  · right; rw [corn_ca]; norm_num
  · left; rw [corn_cb]; norm_num
  · rw [corn_eval]; rfl

/-- Claim C3, amended: for every accepted pair, when the absolute dot
product of the unit directions is below 0.01 the joint type follows the
strict end test (strictly below 0.01 or strictly above 0.99) on the two
clamped parameters: CORNER when both are at an end, T_JOINT when exactly
one is, CROSS when neither is; when the dot product exceeds 0.99 the
joint is INLINE and generate_joint_features yields neither tab nor
slot. -/
theorem spec_C3_amended :
    ∀ a b : MemberAxis, ∀ tol : ℝ, ∀ j : Joint,
      find_intersection a b tol = some j →
      (fiDotDirs a b < 0.01 →
        j.joint_type =
          (if fiIsEnd (fiClampA a b) then
            (if fiIsEnd (fiClampB a b) then JointType.CORNER else JointType.T_JOINT)
          else if fiIsEnd (fiClampB a b) then JointType.T_JOINT
          else JointType.CROSS)) ∧
      (fiDotDirs a b > 0.99 →
        j.joint_type = JointType.INLINE ∧
        ∀ g : TabSlotGenerator, g.generate_joint_features j = (none, none)) := by
  intro a b tol j h
  have hj := find_intersection_inv a b tol j h
  subst hj
  constructor
  · intro hlt
    have hng : ¬ fiDotDirs a b > 0.99 := by
      intro hgt
      have : (0.99:ℝ) < 0.01 := lt_trans hgt hlt
      norm_num at this
    show fiJointType a b = _
    unfold fiJointType
    rw [if_neg hng, if_pos hlt]
  · intro hgt
    have htype : (fiJoint a b).joint_type = JointType.INLINE := by
      show fiJointType a b = _
      unfold fiJointType
      rw [if_pos hgt]
    refine ⟨htype, fun g => ?_⟩
    unfold TabSlotGenerator.generate_joint_features
    rw [if_pos htype]

/-- Claim C3, witness: the collinear pair scanned as (parB, axisX) is
accepted with dot product 1, so the amended theorem yields INLINE and an
empty feature pair. -/
theorem spec_C3_witness :
    jInl.joint_type = JointType.INLINE ∧
    ∀ g : TabSlotGenerator, g.generate_joint_features jInl = (none, none) :=
  (spec_C3_amended parB axisX 1 jInl parBA_eval).2 (by rw [parBA_dot]; norm_num)

/-- Claim C4, counterexample: for the collinear pair (axisX, parB) the scan
order decides existence: (A, B) is rejected outright while (B, A) yields an
INLINE joint, so find_intersection is not symmetric. -/
theorem spec_C4_counterexample :
    find_intersection axisX parB 1 = none ∧
    (find_intersection parB axisX 1).isSome = true := by
  refine ⟨parAB_eval, ?_⟩
  rw [parBA_eval]; rfl

/-- Claim C4, amended: for pairs whose unit directions are not parallel in
the sense of the source's guard (the Gram determinant at least 1e-10 in
absolute value), find_intersection emits a joint for (A, B) exactly when it
does for (B, A), and the two joints carry the same joint type. -/
theorem spec_C4_amended :
    ∀ a b : MemberAxis, ∀ tol : ℝ,
      ¬ |gramDenom (fiDir a) (fiDir b)| < 1e-10 →
      (((find_intersection a b tol).isSome = true) ↔
        ((find_intersection b a tol).isSome = true)) ∧
      (∀ j j' : Joint, find_intersection a b tol = some j →
        find_intersection b a tol = some j' → j.joint_type = j'.joint_type) := by
  intro a b tol hden
  have hT : fiT b a = ((fiT a b).2.1, (fiT a b).1, (fiT a b).2.2) := by
    unfold fiT closestPointsOnLines
    rw [cplT1_swap a.start (fiDir a) b.start (fiDir b) hden,
        cplT2_swap a.start (fiDir a) b.start (fiDir b) hden,
        cplDist_swap a.start (fiDir a) b.start (fiDir b) hden]
  have hpa : fiParamA b a = fiParamB a b := by
    unfold fiParamA fiParamB; rw [hT]
  have hpb : fiParamB b a = fiParamA a b := by
    unfold fiParamA fiParamB; rw [hT]
  have hdist : fiDist b a = fiDist a b := by
    unfold fiDist; rw [hT]
  have hdot : fiDotDirs b a = fiDotDirs a b := by
    unfold fiDotDirs
    rw [show vdot (fiDir b) (fiDir a) = vdot (fiDir a) (fiDir b) by unfold vdot; ring]
  have hca : fiClampA b a = fiClampB a b := by
    unfold fiClampA fiClampB; rw [hpa]
  have hcb : fiClampB b a = fiClampA a b := by
    unfold fiClampB fiClampA; rw [hpb]
  constructor
  · rw [find_intersection_isSome_iff, find_intersection_isSome_iff, hpa, hpb, hdist]
    rw [show fiMarginA b a tol = fiMarginB a b tol from rfl,
        show fiMarginB b a tol = fiMarginA a b tol from rfl,
        add_comm b.width a.width]
    tauto
  · intro j j' hj hj'
    have e1 := find_intersection_inv a b tol j hj
    have e2 := find_intersection_inv b a tol j' hj'
    subst e1; subst e2
    show fiJointType a b = fiJointType b a
    unfold fiJointType
    rw [hdot, hca, hcb]
    by_cases hA : fiIsEnd (fiClampA a b) <;> by_cases hB : fiIsEnd (fiClampB a b) <;>
      simp [hA, hB]

/-- Claim C4, witness: the perpendicular Scenario B pair satisfies the
non-parallel hypothesis and the symmetric existence conclusion. -/
theorem spec_C4_witness :
    ((find_intersection vrtA horB 1).isSome = true) ↔
      ((find_intersection horB vrtA 1).isSome = true) := by
  have hden : ¬ |gramDenom (fiDir vrtA) (fiDir horB)| < 1e-10 := by
    rw [vrtA_dir, horB_dir]; exact gram_zx
  exact (spec_C4_amended vrtA horB 1 hden).1

/-- Claim C5, counterexample: the degenerate member degD (length 0) is not
skipped: the full scan over [degD, memM] returns a joint in which degD
participates as the slot-receiving member. -/
theorem spec_C5_counterexample :
    degD.length < 1e-6 ∧
    (detect_all_joints [degD, memM] 1).map Joint.member_a = [degD] := by
  constructor
  · rw [degD_len]; norm_num
  · rw [degDM_detect]; rfl

/-- Claim C5, amended: a member below the 1e-6 length threshold is not
skipped by joint detection; find_intersection substitutes the fallback
direction (0, 0, 1) and parameter 0 for it and may still emit a joint in
which it participates, while the scan runs to completion (it is a total
function). -/
theorem spec_C5_amended :
    degD.length < 1e-6 ∧ fiDir degD = ((0:ℝ), (0:ℝ), (1:ℝ)) ∧
    fiParamA degD memM = 0 ∧
    detect_all_joints [degD, memM] 1 = [jDM] ∧ jDM.member_a = degD :=
  ⟨by rw [degD_len]; norm_num, degD_dir, degDM_pa, degDM_detect, rfl⟩

/-- Claim C6: the orchestrator constructs the generator with a
tab_depth_ratio keyword that TabSlotGenerator.__init__ does not declare,
so the call raises TypeError; the generator itself supports only the fixed
tab_depth_mm policy, and the tab depth it emits never depends on the
mating member's width. -/
theorem spec_C6_bug :
    py_kwargs_accepted tabSlotGenerator_init_params jointedBox_tabSlotGen_call_kwargs
      = false ∧
    "tab_depth_ratio" ∈ jointedBox_tabSlotGen_call_kwargs ∧
    "tab_depth_ratio" ∉ tabSlotGenerator_init_params ∧
    ∀ (g : TabSlotGenerator) (j : Joint) (f : TabPosition),
      (g.calc_tab_geometry j f).depth = g.tab_depth_mm :=
  ⟨by decide, by decide, by decide, fun g j f => rfl⟩

/-- Claim C7: for every profile valid for joinery the tab is strictly
narrower than the slot and the difference is exactly
slot_clearance + tab_undersize + 2 * kerf_compensation; on the Scenario C
profile the widths are 3.425 and 2.975 with fit clearance 0.45. -/
theorem spec_C7 :
    (∀ p : TubeProfile, profile_valid_for_joinery p →
      p.calc_tab_width none < p.calc_slot_width none ∧
      p.calc_slot_width none - p.calc_tab_width none =
        p.tolerances.slot_clearance_mm + p.tolerances.tab_undersize_mm +
          2 * p.tolerances.kerf_compensation_mm) ∧
    scProfile.calc_slot_width none = 3.425 ∧
    scProfile.calc_tab_width none = 2.975 ∧
    scProfile.calc_fit_clearance = 0.45 := by
  refine ⟨fun p hp => ⟨hp.2.2.2.2.2.2.2.2.2, ?_⟩, ?_, ?_, ?_⟩
  · unfold TubeProfile.calc_slot_width TubeProfile.calc_tab_width orWall
    ring
  · norm_num [TubeProfile.calc_slot_width, orWall, scProfile]
  · norm_num [TubeProfile.calc_tab_width, orWall, scProfile]
  · norm_num [TubeProfile.calc_fit_clearance, TubeProfile.calc_slot_width,
      TubeProfile.calc_tab_width, orWall, scProfile]

/-- Claim C7, witness: the Scenario C profile is valid for joinery and the
fit invariant holds on it. -/
theorem spec_C7_witness :
    scProfile.calc_tab_width none < scProfile.calc_slot_width none ∧
    scProfile.calc_slot_width none - scProfile.calc_tab_width none =
      scProfile.tolerances.slot_clearance_mm + scProfile.tolerances.tab_undersize_mm +
        2 * scProfile.tolerances.kerf_compensation_mm := by
  have hv : profile_valid_for_joinery scProfile := by
    unfold profile_valid_for_joinery TubeProfile.calc_tab_width
      TubeProfile.calc_slot_width orWall
    norm_num [scProfile]
  exact spec_C7.1 scProfile hv

/-- Claim C8, counterexample: the boxes of t8a and t8b do not touch (there
is a 0.2 mm gap along x), yet the pair is reported as a TAB_TAB
interference because the gap is below the 0.5 mm tolerance. -/
theorem spec_C8_counterexample :
    (BoundingBox.from_tab t8a).max_x < (BoundingBox.from_tab t8b).min_x ∧
    check_tab_tab_interference [("j1", t8a), ("j2", t8b)] 0.5 =
      [mkTabTabInterference "j1" t8a "j2" t8b] := by
  constructor
  · norm_num [BoundingBox.from_tab, t8a, t8b]
  · have hint : BoundingBox.intersects (BoundingBox.from_tab t8a)
        (BoundingBox.from_tab t8b) 0.5 = true := by
      rw [intersects_iff]
      norm_num [BoundingBox.from_tab, t8a, t8b]
    simp [check_tab_tab_interference, List.filterMap_cons, hint]

/-- Claim C8, amended: check_tab_tab_interference reports exactly the
scan-ordered pairs whose boxes pass the tolerance-expanded intersection
test; a pair whose boxes overlap on every axis is always reported (for a
non-negative tolerance), and a pair separated by more than the tolerance on
some axis never is. -/
theorem spec_C8_amended :
    (∀ tabs : List (String × TabGeometry), ∀ tol : ℝ,
      check_tab_tab_interference tabs tol =
        (tailPairs tabs).filterMap (fun p =>
          if BoundingBox.intersects (BoundingBox.from_tab p.1.2)
              (BoundingBox.from_tab p.2.2) tol then
            some (mkTabTabInterference p.1.1 p.1.2 p.2.1 p.2.2)
          else none)) ∧
    (∀ s o : BoundingBox, ∀ tol : ℝ, 0 ≤ tol →
      (o.min_x < s.max_x ∧ s.min_x < o.max_x ∧ o.min_y < s.max_y ∧
       s.min_y < o.max_y ∧ o.min_z < s.max_z ∧ s.min_z < o.max_z) →
      BoundingBox.intersects s o tol = true) ∧
    (∀ s o : BoundingBox, ∀ tol : ℝ,
      (s.max_x < o.min_x - tol ∨ s.min_x > o.max_x + tol ∨
       s.max_y < o.min_y - tol ∨ s.min_y > o.max_y + tol ∨
       s.max_z < o.min_z - tol ∨ s.min_z > o.max_z + tol) →
      BoundingBox.intersects s o tol = false) := by
  refine ⟨?_, ?_, ?_⟩
  · intro tabs tol
    induction tabs with
    | nil => rfl
    | cons x rest ih =>
      obtain ⟨ida, ta⟩ := x
      simp only [check_tab_tab_interference, tailPairs, List.filterMap_append,
        List.filterMap_map, ih]
      rfl
  · intro s o tol htol hov
    obtain ⟨h1, h2, h3, h4, h5, h6⟩ := hov
    rw [intersects_iff]
    refine ⟨by linarith, by linarith, by linarith, by linarith, by linarith, by linarith⟩
  · intro s o tol hsep
    rcases Bool.eq_false_or_eq_true (BoundingBox.intersects s o tol) with ht | hf
    · exfalso
      obtain ⟨c1, c2, c3, c4, c5, c6⟩ := (intersects_iff s o tol).mp ht
      rcases hsep with h | h | h | h | h | h
      · exact c1 h
      · exact c2 h
      · exact c3 h
      · exact c4 h
      · exact c5 h
      · exact c6 h
    · exact hf

/-- Claim C8, witness: a box overlaps itself, so the duplicate-tab pair is
reported; and the concrete disjoint boxes of the counterexample are not
reported at tolerance 0. -/
theorem spec_C8_witness :
    BoundingBox.intersects (BoundingBox.from_tab t8a) (BoundingBox.from_tab t8a)
      0.5 = true ∧
    BoundingBox.intersects (BoundingBox.from_tab t8a) (BoundingBox.from_tab t8b)
      0 = false := by
  constructor
  · exact spec_C8_amended.2.1 (BoundingBox.from_tab t8a) (BoundingBox.from_tab t8a)
      0.5 (by norm_num) (by norm_num [BoundingBox.from_tab, t8a])
  · exact spec_C8_amended.2.2 (BoundingBox.from_tab t8a) (BoundingBox.from_tab t8b)
      0 (by left; norm_num [BoundingBox.from_tab, t8a, t8b])

/-- Claim C9, counterexample: a tab with the rounded corner radius 0.05
(positive, hence a rounded corner) still gets DOGBONE on a plasma process,
because the source only treats radii above 0.1 as rounded. -/
theorem spec_C9_counterexample :
    (0:ℝ) < 0.05 ∧
    recommend_relief_type "plasma" 0.05 = CornerReliefType.DOGBONE ∧
    CornerReliefType.DOGBONE ≠ CornerReliefType.RADIUS := by
  refine ⟨by norm_num, ?_, by decide⟩
  unfold recommend_relief_type
  rw [if_neg (by norm_num : ¬ (0.05:ℝ) > 0.1)]
  rw [if_neg (by decide : ¬ pyLower "plasma" ∈ ["laser", "fiber laser", "co2 laser"])]
  rw [if_pos (by decide : pyLower "plasma" ∈ ["plasma"])]

/-- Claim C9, amended: recommend_relief_type returns RADIUS whenever the
tab corner radius exceeds 0.1; otherwise it returns RADIUS for the laser
and waterjet process names, DOGBONE for plasma, cnc, mill and router, and
RADIUS for any other process, always after lower-casing the process
name. -/
theorem spec_C9_amended :
    ∀ s : String, ∀ r : ℝ,
      (r > 0.1 → recommend_relief_type s r = CornerReliefType.RADIUS) ∧
      (¬ r > 0.1 →
        (pyLower s ∈ ["laser", "fiber laser", "co2 laser", "waterjet"] →
          recommend_relief_type s r = CornerReliefType.RADIUS) ∧
        (pyLower s ∈ ["plasma", "cnc", "mill", "router"] →
          recommend_relief_type s r = CornerReliefType.DOGBONE) ∧
        (pyLower s ∉ ["laser", "fiber laser", "co2 laser", "waterjet",
            "plasma", "cnc", "mill", "router"] →
          recommend_relief_type s r = CornerReliefType.RADIUS)) := by
  intro s r
  constructor
  · intro hr
    unfold recommend_relief_type
    rw [if_pos hr]
  · intro hr
    refine ⟨?_, ?_, ?_⟩
    · intro hmem
      have hc : pyLower s = "laser" ∨ pyLower s = "fiber laser" ∨
          pyLower s = "co2 laser" ∨ pyLower s = "waterjet" := by
        simpa using hmem
      unfold recommend_relief_type
      rw [if_neg hr]
      rcases hc with h | h | h | h <;> rw [h] <;> decide
    · intro hmem
      have hc : pyLower s = "plasma" ∨ pyLower s = "cnc" ∨
          pyLower s = "mill" ∨ pyLower s = "router" := by
        simpa using hmem
      unfold recommend_relief_type
      rw [if_neg hr]
      rcases hc with h | h | h | h <;> rw [h] <;> decide
    · intro hmem
      have hc : ¬(pyLower s = "laser" ∨ pyLower s = "fiber laser" ∨
          pyLower s = "co2 laser" ∨ pyLower s = "waterjet" ∨ pyLower s = "plasma" ∨
          pyLower s = "cnc" ∨ pyLower s = "mill" ∨ pyLower s = "router") := by
        simpa using hmem
      push_neg at hc
      obtain ⟨n1, n2, n3, n4, n5, n6, n7, n8⟩ := hc
      unfold recommend_relief_type
      rw [if_neg hr]
      rw [if_neg (by simp [n1, n2, n3] :
        ¬ pyLower s ∈ ["laser", "fiber laser", "co2 laser"])]
      rw [if_neg (by simp [n5] : ¬ pyLower s ∈ ["plasma"])]
      rw [if_neg (by simp [n4] : ¬ pyLower s ∈ ["waterjet"])]
      rw [if_neg (by simp [n6, n7, n8] : ¬ pyLower s ∈ ["cnc", "mill", "router"])]

/-- Claim C9, witness: the amended rule applied at plasma with a square
tab corner. -/
theorem spec_C9_witness :
    recommend_relief_type "plasma" 0 = CornerReliefType.DOGBONE :=
  ((spec_C9_amended "plasma" 0).2 (by norm_num)).2.1 (by decide)

/-- Claim C10: every joint that find_intersection emits carries TOP in
both its tab_face and slot_face fields; every branch of the face selection
in the source assigns TOP. -/
theorem spec_C10 :
    ∀ a b : MemberAxis, ∀ tol : ℝ, ∀ j : Joint,
      find_intersection a b tol = some j →
      j.tab_face = TabPosition.TOP ∧ j.slot_face = TabPosition.TOP := by
  intro a b tol j h
  have hj := find_intersection_inv a b tol j h
  subst hj
  exact ⟨fiTabFaceOf_eq_top (fiTabMember a b), rfl⟩

/-- Claim C10, witness: the Scenario B joint carries TOP on both faces. -/
theorem spec_C10_witness :
    jScB.tab_face = TabPosition.TOP ∧ jScB.slot_face = TabPosition.TOP :=
  spec_C10 vrtA horB 1 jScB scenB_eval

end
